import Mathlib

/-!
Verification of the decision/scoring engine of the fish-classifier backend
(`backend/app/services/prediction.py`, class `PredictionService`).

Shallow embedding conventions:
* Python floats are modelled as rationals (`ℚ`); all literals of the source
  (6.5, 0.05, ...) are exact decimal fractions, so the embedding is exact.
* A `Dict[str, float]` whose relevant keys are fixed is modelled as a record
  of `Option ℚ` fields; `none` means the key is absent.
* The external predictive models are opaque capabilities that may fail: an
  outcome is `Option (String × ℚ)` (species, confidence) for the species
  models and `Option ℚ` for the water-quality model, `none` meaning the call
  raised.  Whether `self.water_quality_model.model` is loaded (truthy) is a
  `Bool` argument.
* Python exceptions that escape a function are modelled with `Except Unit`.
* Free-text `description` strings of the catalog are elided (`none`); no
  analysed behaviour reads them.
-/

/-- Mirror of the `FishSpeciesInfo` schema: name plus optional metadata and
the three ideal ranges, each a `[low, high]` pair. -/
structure FishSpeciesInfo where
  name : String
  scientific_name : Option String := none
  ideal_ph_range : Option (ℚ × ℚ) := none
  ideal_temperature_range : Option (ℚ × ℚ) := none
  ideal_turbidity_range : Option (ℚ × ℚ) := none
  description : Option String := none
deriving Repr, DecidableEq

/-- The keys of a parameter dictionary that the helper methods of
`PredictionService` ever read (`ph`, `temperature`, `turbidity`,
`dissolved_oxygen`, `ammonia`, `nitrite`); `none` models an absent key. -/
structure WaterData where
  ph : Option ℚ := none
  temperature : Option ℚ := none
  turbidity : Option ℚ := none
  dissolved_oxygen : Option ℚ := none
  ammonia : Option ℚ := none
  nitrite : Option ℚ := none
deriving Repr, DecidableEq

/-- `BasicFishPredictionRequest`: the three required basic-tier fields. -/
structure BasicFishPredictionRequest where
  ph : ℚ
  temperature : ℚ
  turbidity : ℚ
deriving Repr, DecidableEq

/-- `AdvancedFishPredictionRequest`: the fourteen advanced-tier fields. -/
structure AdvancedFishPredictionRequest where
  ph : ℚ
  temperature : ℚ
  turbidity : ℚ
  dissolved_oxygen : ℚ
  bod : ℚ
  co2 : ℚ
  alkalinity : ℚ
  hardness : ℚ
  calcium : ℚ
  ammonia : ℚ
  nitrite : ℚ
  phosphorus : ℚ
  h2s : ℚ
  plankton : ℚ
deriving Repr, DecidableEq

/-- Per-parameter record produced by the analyzers:
`{value, status, recommendation}`. -/
structure ParameterAnalysisEntry where
  value : ℚ
  status : String
  recommendation : Option String
deriving Repr, DecidableEq

/-- The `parameter_analysis` dictionary: at most one entry per recognized
parameter key. -/
structure ParameterAnalysis where
  ph : Option ParameterAnalysisEntry := none
  temperature : Option ParameterAnalysisEntry := none
  turbidity : Option ParameterAnalysisEntry := none
  dissolved_oxygen : Option ParameterAnalysisEntry := none
  ammonia : Option ParameterAnalysisEntry := none
  nitrite : Option ParameterAnalysisEntry := none
deriving Repr, DecidableEq

/-- The dictionary returned by `predict_basic` / `predict_advanced`.
`water_quality_score` is `Option` because the advanced tier can leave it
`None`. -/
structure PredictionResultT where
  predicted_species : String
  confidence : ℚ
  water_quality_score : Option ℚ
  parameter_analysis : ParameterAnalysis
  suitable_species : List FishSpeciesInfo
deriving Repr, DecidableEq

/-- `_initialize_species_info`: the static catalog, in Python dict insertion
order (Tilapia, Catfish, Carp, Salmon, Trout, Shrimp, Goldfish). -/
def fish_species_info : List (String × FishSpeciesInfo) :=
  [ ("Tilapia",
      { name := "Tilapia", scientific_name := some "Oreochromis niloticus",
        ideal_ph_range := some (6.5, 8.0),
        ideal_temperature_range := some (25.0, 30.0),
        ideal_turbidity_range := some (30.0, 80.0) }),
    ("Catfish",
      { name := "Catfish", scientific_name := some "Clarias gariepinus",
        ideal_ph_range := some (6.0, 8.0),
        ideal_temperature_range := some (24.0, 28.0),
        ideal_turbidity_range := some (20.0, 60.0) }),
    ("Carp",
      { name := "Carp", scientific_name := some "Cyprinus carpio",
        ideal_ph_range := some (6.5, 9.0),
        ideal_temperature_range := some (20.0, 28.0),
        ideal_turbidity_range := some (30.0, 70.0) }),
    ("Salmon",
      { name := "Salmon", scientific_name := some "Salmo salar",
        ideal_ph_range := some (6.5, 8.0),
        ideal_temperature_range := some (10.0, 16.0),
        ideal_turbidity_range := some (5.0, 20.0) }),
    ("Trout",
      { name := "Trout", scientific_name := some "Oncorhynchus mykiss",
        ideal_ph_range := some (6.5, 8.0),
        ideal_temperature_range := some (12.0, 18.0),
        ideal_turbidity_range := some (5.0, 25.0) }),
    ("Shrimp",
      { name := "Shrimp", scientific_name := some "Litopenaeus vannamei",
        ideal_ph_range := some (7.0, 8.5),
        ideal_temperature_range := some (26.0, 32.0),
        ideal_turbidity_range := some (30.0, 60.0) }),
    ("Goldfish",
      { name := "Goldfish", scientific_name := some "Carassius auratus",
        ideal_ph_range := some (6.0, 8.0),
        ideal_temperature_range := some (20.0, 25.0),
        ideal_turbidity_range := some (20.0, 50.0) }) ]

/-- The four rule predicates of the rule-based fallback in `predict_basic`,
in source order.  Tilapia: `6.5 <= ph <= 7.5 and 25 <= temperature <= 30
and 30 <= turbidity <= 60`. -/
def tilapia_rule (ph temperature turbidity : ℚ) : Bool :=
  decide (6.5 ≤ ph ∧ ph ≤ 7.5 ∧ 25 ≤ temperature ∧ temperature ≤ 30 ∧
          30 ≤ turbidity ∧ turbidity ≤ 60)

/-- Catfish: `6.0 <= ph <= 7.0 and 24 <= temperature <= 28 and
20 <= turbidity <= 50`. -/
def catfish_rule (ph temperature turbidity : ℚ) : Bool :=
  decide (6.0 ≤ ph ∧ ph ≤ 7.0 ∧ 24 ≤ temperature ∧ temperature ≤ 28 ∧
          20 ≤ turbidity ∧ turbidity ≤ 50)

/-- Carp: `6.5 <= ph <= 8.0 and 20 <= temperature <= 26 and
30 <= turbidity <= 70`. -/
def carp_rule (ph temperature turbidity : ℚ) : Bool :=
  decide (6.5 ≤ ph ∧ ph ≤ 8.0 ∧ 20 ≤ temperature ∧ temperature ≤ 26 ∧
          30 ≤ turbidity ∧ turbidity ≤ 70)

/-- Trout: `6.5 <= ph <= 8.0 and 10 <= temperature <= 18 and
5 <= turbidity <= 25`. -/
def trout_rule (ph temperature turbidity : ℚ) : Bool :=
  decide (6.5 ≤ ph ∧ ph ≤ 8.0 ∧ 10 ≤ temperature ∧ temperature ≤ 18 ∧
          5 ≤ turbidity ∧ turbidity ≤ 25)

/-- The ordered first-match-wins fallback of `predict_basic`
(lines 111-132): default `("Tilapia", 0.7)`, overridden by the first
matching rule. -/
def rule_based_prediction (ph temperature turbidity : ℚ) : String × ℚ :=
  if tilapia_rule ph temperature turbidity then ("Tilapia", 0.85)
  else if catfish_rule ph temperature turbidity then ("Catfish", 0.80)
  else if carp_rule ph temperature turbidity then ("Carp", 0.75)
  else if trout_rule ph temperature turbidity then ("Trout", 0.90)
  else ("Tilapia", 0.7)

/-- The Variant A banding of `predict_basic` (lines 134-158): 3/2/1 points
per parameter, then `(sum / 9) * 10`. -/
def basic_water_quality_score (data : BasicFishPredictionRequest) : ℚ :=
  let s1 : ℚ :=
    if 6.5 ≤ data.ph ∧ data.ph ≤ 8.5 then 3
    else if 6.0 ≤ data.ph ∧ data.ph ≤ 9.0 then 2
    else 1
  let s2 : ℚ :=
    if 22 ≤ data.temperature ∧ data.temperature ≤ 30 then 3
    else if 18 ≤ data.temperature ∧ data.temperature ≤ 32 then 2
    else 1
  let s3 : ℚ :=
    if 30 ≤ data.turbidity ∧ data.turbidity ≤ 80 then 3
    else if 20 ≤ data.turbidity ∧ data.turbidity ≤ 100 then 2
    else 1
  ((s1 + s2 + s3) / 9) * 10

/-- `_calculate_water_quality_score` (Variant B, weighted): keys `ph`
(weight 1.5), `temperature` (weight 1.0), `dissolved_oxygen` (weight 2.0);
final `(score / total_weight) * 10`, or `5.0` when `total_weight = 0`.
Key presence (the Python `in` test) is membership, not truthiness. -/
def _calculate_water_quality_score (data : WaterData) : ℚ :=
  let score : ℚ := 0
  let total_weight : ℚ := 0
  let p1 : ℚ × ℚ :=
    match data.ph with
    | some ph =>
        let weight : ℚ := 1.5
        (score +
          (if 6.5 ≤ ph ∧ ph ≤ 8.5 then weight * 1.0
           else if 6.0 ≤ ph ∧ ph ≤ 9.0 then weight * 0.7
           else weight * 0.3),
         total_weight + weight)
    | none => (score, total_weight)
  let p2 : ℚ × ℚ :=
    match data.temperature with
    | some temp =>
        let weight : ℚ := 1.0
        (p1.1 +
          (if 20 ≤ temp ∧ temp ≤ 30 then weight * 1.0
           else if 15 ≤ temp ∧ temp ≤ 35 then weight * 0.7
           else weight * 0.3),
         p1.2 + weight)
    | none => p1
  let p3 : ℚ × ℚ :=
    match data.dissolved_oxygen with
    | some dox =>
        let weight : ℚ := 2.0
        (p2.1 +
          (if 6.0 ≤ dox then weight * 1.0
           else if 4.0 ≤ dox then weight * 0.7
           else weight * 0.3),
         p2.2 + weight)
    | none => p2
  if p3.2 > 0 then (p3.1 / p3.2) * 10 else 5.0

/-- The `ph` entry built by `_analyze_parameters_basic` for a truthy value. -/
def ph_analysis_entry (ph : ℚ) : ParameterAnalysisEntry :=
  { value := ph,
    status := if 6.5 ≤ ph ∧ ph ≤ 8.5 then "optimal" else "suboptimal",
    recommendation :=
      if ph < 6.5 then
        some "Consider adding limestone or calcium carbonate to increase pH"
      else if ph > 8.5 then
        some "Consider adding natural acids like peat or driftwood to decrease pH"
      else none }

/-- The `temperature` entry built by `_analyze_parameters_basic`. -/
def temperature_analysis_entry (temp : ℚ) : ParameterAnalysisEntry :=
  { value := temp,
    status := if 20 ≤ temp ∧ temp ≤ 30 then "optimal" else "suboptimal",
    recommendation :=
      if temp < 20 then
        some "Consider using heaters to increase water temperature"
      else if temp > 30 then
        some "Consider cooling methods like shade or water exchange"
      else none }

/-- The `turbidity` entry built by `_analyze_parameters_basic`. -/
def turbidity_analysis_entry (turbidity : ℚ) : ParameterAnalysisEntry :=
  { value := turbidity,
    status := if 30 ≤ turbidity ∧ turbidity ≤ 80 then "optimal" else "suboptimal",
    recommendation :=
      if turbidity < 30 then
        some "Water is very clear, which may indicate low productivity"
      else if turbidity > 80 then
        some "Water is too cloudy, consider filtration or water exchange"
      else none }

/-- The `dissolved_oxygen` entry built by `_analyze_parameters_advanced`. -/
def dissolved_oxygen_analysis_entry (dox : ℚ) : ParameterAnalysisEntry :=
  { value := dox,
    status := if 5 ≤ dox ∧ dox ≤ 9 then "optimal" else "suboptimal",
    recommendation :=
      if dox < 5 then
        some "Low oxygen levels. Consider aeration or reducing fish density"
      else if dox > 9 then
        some "High oxygen levels, possibly due to excessive algae growth"
      else none }

/-- The `ammonia` entry built by `_analyze_parameters_advanced`. -/
def ammonia_analysis_entry (ammonia : ℚ) : ParameterAnalysisEntry :=
  { value := ammonia,
    status := if ammonia < 0.1 then "optimal" else "suboptimal",
    recommendation :=
      if ammonia ≥ 0.1 then
        some "High ammonia levels. Reduce feeding and increase water exchange"
      else none }

/-- The `nitrite` entry built by `_analyze_parameters_advanced`. -/
def nitrite_analysis_entry (nitrite : ℚ) : ParameterAnalysisEntry :=
  { value := nitrite,
    status := if nitrite < 0.05 then "optimal" else "suboptimal",
    recommendation :=
      if nitrite ≥ 0.05 then
        some "High nitrite levels. Check biofilter and reduce feeding"
      else none }

/-- A dict entry is produced only when `data.get(key)` is truthy: present
and non-zero (the Python `if ph:` guard). -/
def truthy_entry (x : Option ℚ) (f : ℚ → ParameterAnalysisEntry) :
    Option ParameterAnalysisEntry :=
  match x with
  | some v => if v ≠ 0 then some (f v) else none
  | none => none

/-- `_analyze_parameters_basic`: builds the `ph`, `temperature`, `turbidity`
entries, each guarded by truthiness of the fetched value. -/
def _analyze_parameters_basic (data : WaterData) : ParameterAnalysis :=
  { ph := truthy_entry data.ph ph_analysis_entry,
    temperature := truthy_entry data.temperature temperature_analysis_entry,
    turbidity := truthy_entry data.turbidity turbidity_analysis_entry }

/-- `_analyze_parameters_advanced`: starts from the basic analysis and adds
`dissolved_oxygen`, `ammonia`, `nitrite` entries under the same truthiness
guard. -/
def _analyze_parameters_advanced (data : WaterData) : ParameterAnalysis :=
  let analysis := _analyze_parameters_basic data
  { analysis with
    dissolved_oxygen :=
      truthy_entry data.dissolved_oxygen dissolved_oxygen_analysis_entry,
    ammonia := truthy_entry data.ammonia ammonia_analysis_entry,
    nitrite := truthy_entry data.nitrite nitrite_analysis_entry }

/-- The per-species range check of `_get_suitable_species_basic`
(lines 412-418): each range defaults via Python `or` when the species has
none (`[6.0, 8.5]`, `[18.0, 32.0]`, `[20.0, 80.0]`); inclusive bounds. -/
def basic_range_ok (ph temperature turbidity : ℚ) (info : FishSpeciesInfo) : Bool :=
  let ph_range := info.ideal_ph_range.getD (6.0, 8.5)
  let temp_range := info.ideal_temperature_range.getD (18.0, 32.0)
  let turbidity_range := info.ideal_turbidity_range.getD (20.0, 80.0)
  decide (ph_range.1 ≤ ph ∧ ph ≤ ph_range.2 ∧
          temp_range.1 ≤ temperature ∧ temperature ≤ temp_range.2 ∧
          turbidity_range.1 ≤ turbidity ∧ turbidity ≤ turbidity_range.2)

/-- `_get_suitable_species_basic`: fetch `ph`, `temperature`, `turbidity`
with defaults 7.0 / 25.0 / 50.0, then append each catalog species whose
ranges all contain the values, iterating in catalog order. -/
def _get_suitable_species_basic (data : WaterData) : List String :=
  let ph := data.ph.getD 7.0
  let temperature := data.temperature.getD 25.0
  let turbidity := data.turbidity.getD 50.0
  fish_species_info.foldl
    (fun suitable_species p =>
      if basic_range_ok ph temperature turbidity p.2 then
        suitable_species ++ [p.1]
      else suitable_species) []

/-- The per-species advanced criterion of `_get_suitable_species_advanced`
(lines 435-448): Salmon/Trout need `do >= 7.0 and ammonia < 0.05 and
nitrite < 0.01`; Tilapia/Catfish/Carp need `do >= 4.0`; any other species
needs `do >= 5.0 and ammonia < 0.1 and nitrite < 0.05`. -/
def advanced_criteria_ok (dox ammonia nitrite : ℚ) (species : String) : Bool :=
  if species = "Salmon" ∨ species = "Trout" then
    decide (dox ≥ 7.0 ∧ ammonia < 0.05 ∧ nitrite < 0.01)
  else if species = "Tilapia" ∨ species = "Catfish" ∨ species = "Carp" then
    decide (dox ≥ 4.0)
  else
    decide (dox ≥ 5.0 ∧ ammonia < 0.1 ∧ nitrite < 0.05)

/-- `_get_suitable_species_advanced`: start from the basic-qualified list,
fetch `dissolved_oxygen`, `ammonia`, `nitrite` with defaults
6.0 / 0.05 / 0.01, append each surviving species in order. -/
def _get_suitable_species_advanced (data : WaterData) : List String :=
  let suitable_from_basic := _get_suitable_species_basic data
  let dox := data.dissolved_oxygen.getD 6.0
  let ammonia := data.ammonia.getD 0.05
  let nitrite := data.nitrite.getD 0.01
  suitable_from_basic.foldl
    (fun suitable_species species =>
      if advanced_criteria_ok dox ammonia nitrite species then
        suitable_species ++ [species]
      else suitable_species) []

/-- `self.fish_species_info.get(species, FishSpeciesInfo(name=species))`:
catalog lookup with a minimal name-only record as default. -/
def lookup_species_info (species : String) : FishSpeciesInfo :=
  (fish_species_info.lookup species).getD { name := species }

/-- The 3-key `input_data` dict built by `predict_basic`. -/
def basic_input_data (data : BasicFishPredictionRequest) : WaterData :=
  { ph := some data.ph, temperature := some data.temperature,
    turbidity := some data.turbidity }

/-- The 14-key `input_data` dict built by `predict_advanced`, restricted to
the keys any helper reads (all six are present). -/
def advanced_input_data (data : AdvancedFishPredictionRequest) : WaterData :=
  { ph := some data.ph, temperature := some data.temperature,
    turbidity := some data.turbidity,
    dissolved_oxygen := some data.dissolved_oxygen,
    ammonia := some data.ammonia, nitrite := some data.nitrite }

/-- `predict_basic`.  `basic_model_outcome` is the outcome of the external
`self.basic_model.predict` try-block: `some (species, confidence)` on
success, `none` when any exception occurs (then the rule-based fallback
runs).  The rest of the body never raises on well-typed input. -/
def predict_basic (basic_model_outcome : Option (String × ℚ))
    (data : BasicFishPredictionRequest) : PredictionResultT :=
  let input_data := basic_input_data data
  let sc : String × ℚ :=
    match basic_model_outcome with
    | some r => r
    | none => rule_based_prediction data.ph data.temperature data.turbidity
  { predicted_species := sc.1,
    confidence := sc.2,
    water_quality_score := some (basic_water_quality_score data),
    parameter_analysis := _analyze_parameters_basic input_data,
    suitable_species :=
      (_get_suitable_species_basic input_data).map lookup_species_info }

/-- `predict_advanced`.  `advanced_model_outcome` models the
`self.advanced_model.predict` try-block; `wq_model_loaded` the truthiness of
`self.water_quality_model.model`; `wq_model_outcome` the outcome of
`self.water_quality_model.predict` (consulted only when the model is
loaded; `none` = raised, which triggers the Variant B fallback).  On primary
failure the whole request delegates to `basic_call` on the 3-parameter
subset, and a failure of that call propagates (`raise`). -/
def predict_advanced
    (basic_call : BasicFishPredictionRequest → Except Unit PredictionResultT)
    (advanced_model_outcome : Option (String × ℚ))
    (wq_model_loaded : Bool) (wq_model_outcome : Option ℚ)
    (data : AdvancedFishPredictionRequest) : Except Unit PredictionResultT :=
  let input_data := advanced_input_data data
  match advanced_model_outcome with
  | some sc =>
      let water_quality_score : Option ℚ :=
        if wq_model_loaded then
          match wq_model_outcome with
          | some s => some s
          | none => some (_calculate_water_quality_score input_data)
        else none
      Except.ok
        { predicted_species := sc.1,
          confidence := sc.2,
          water_quality_score := water_quality_score,
          parameter_analysis := _analyze_parameters_advanced input_data,
          suitable_species :=
            (_get_suitable_species_advanced input_data).map lookup_species_info }
  | none =>
      basic_call
        { ph := data.ph, temperature := data.temperature,
          turbidity := data.turbidity }

/-- A fold that conditionally appends one element per step is a filter-map:
the shape of both species-matcher loops. -/
theorem foldl_if_append {α β : Type} (f : β → α) (q : β → Bool) :
    ∀ (l : List β) (acc : List α),
      l.foldl (fun a x => if q x then a ++ [f x] else a) acc
        = acc ++ (l.filter q).map f := by
  intro l
  induction l with
  | nil => intro acc; simp
  | cons x xs ih =>
      intro acc
      cases hq : q x <;> simp [List.foldl_cons, hq, ih, List.filter_cons]

/-- `_get_suitable_species_basic` is the catalog filtered by the range
check, projected to names. -/
theorem suitable_basic_eq_filter (data : WaterData) :
    _get_suitable_species_basic data
      = (fish_species_info.filter (fun p =>
          basic_range_ok (data.ph.getD 7.0) (data.temperature.getD 25.0)
            (data.turbidity.getD 50.0) p.2)).map Prod.fst := by
  unfold _get_suitable_species_basic
  simpa using
    foldl_if_append Prod.fst
      (fun p => basic_range_ok (data.ph.getD 7.0) (data.temperature.getD 25.0)
          (data.turbidity.getD 50.0) p.2)
      fish_species_info []

/-- `_get_suitable_species_advanced` filters the basic-qualified list by the
advanced criteria. -/
theorem suitable_advanced_eq_filter (data : WaterData) :
    _get_suitable_species_advanced data
      = (_get_suitable_species_basic data).filter (fun species =>
          advanced_criteria_ok (data.dissolved_oxygen.getD 6.0)
            (data.ammonia.getD 0.05) (data.nitrite.getD 0.01) species) := by
  unfold _get_suitable_species_advanced
  simpa using
    foldl_if_append id
      (fun species => advanced_criteria_ok (data.dissolved_oxygen.getD 6.0)
          (data.ammonia.getD 0.05) (data.nitrite.getD 0.01) species)
      (_get_suitable_species_basic data) []

/-- The seven catalog names are pairwise distinct. -/
theorem fish_species_names_nodup : (fish_species_info.map Prod.fst).Nodup := by
  decide

/-- Claim C6: for every input, both species filters return a duplicate-free
list equal to the catalog (in its fixed iteration order: Tilapia, Catfish,
Carp, Salmon, Trout, Shrimp, Goldfish) filtered by the respective predicate
and projected to names. -/
theorem C6_suitable_species_nodup_catalog_order (data : WaterData) :
    _get_suitable_species_basic data
      = (fish_species_info.filter (fun p =>
          basic_range_ok (data.ph.getD 7.0) (data.temperature.getD 25.0)
            (data.turbidity.getD 50.0) p.2)).map Prod.fst ∧
    (_get_suitable_species_basic data).Nodup ∧
    _get_suitable_species_advanced data
      = (fish_species_info.filter (fun p =>
          basic_range_ok (data.ph.getD 7.0) (data.temperature.getD 25.0)
            (data.turbidity.getD 50.0) p.2 &&
          advanced_criteria_ok (data.dissolved_oxygen.getD 6.0)
            (data.ammonia.getD 0.05) (data.nitrite.getD 0.01) p.1)).map
          Prod.fst ∧
    (_get_suitable_species_advanced data).Nodup := by
  have hb := suitable_basic_eq_filter data
  have ha := suitable_advanced_eq_filter data
  refine ⟨hb, ?_, ?_, ?_⟩
  · rw [hb]
    exact fish_species_names_nodup.sublist
      ((List.filter_sublist fish_species_info).map Prod.fst)
  · rw [ha, hb, List.filter_map, List.filter_filter]
    congr 1
    apply List.filter_congr
    intro p _
    simp [Function.comp, Bool.and_comm]
  · rw [ha, hb]
    exact (fish_species_names_nodup.sublist
      ((List.filter_sublist fish_species_info).map Prod.fst)).sublist
      (List.filter_sublist _)

/-- Claim C3 counterexample: at `(ph, temperature, turbidity) =
(6.8, 26, 40)` both the Tilapia and the Catfish fallback rules hold, so the
four rule conjunctions are not pairwise mutually exclusive. -/
theorem C3_counterexample_tilapia_catfish_overlap :
    tilapia_rule 6.8 26 40 = true ∧ catfish_rule 6.8 26 40 = true := by
  constructor <;> norm_num [tilapia_rule, catfish_rule, decide_eq_true_eq]

/-- Claim C3 (amended): the Trout rule is mutually exclusive with each of
the Tilapia, Catfish and Carp rules (its temperature band `[10, 18]` is
disjoint from theirs), but the Tilapia, Catfish and Carp rules pairwise
overlap, so only first-match order disambiguates them. -/
theorem C3_amended_rule_exclusivity :
    (∀ ph temperature turbidity : ℚ,
        trout_rule ph temperature turbidity = true →
          tilapia_rule ph temperature turbidity = false ∧
          catfish_rule ph temperature turbidity = false ∧
          carp_rule ph temperature turbidity = false) ∧
    (tilapia_rule 7 25.5 40 = true ∧ carp_rule 7 25.5 40 = true) ∧
    (catfish_rule 6.8 25 40 = true ∧ carp_rule 6.8 25 40 = true) ∧
    (tilapia_rule 6.9 26 45 = true ∧ catfish_rule 6.9 26 45 = true) := by
  refine ⟨?_, ⟨?_, ?_⟩, ⟨?_, ?_⟩, ⟨?_, ?_⟩⟩
  case refine_2 => norm_num [tilapia_rule, decide_eq_true_eq]
  case refine_3 => norm_num [carp_rule, decide_eq_true_eq]
  case refine_4 => norm_num [catfish_rule, decide_eq_true_eq]
  case refine_5 => norm_num [carp_rule, decide_eq_true_eq]
  case refine_6 => norm_num [tilapia_rule, decide_eq_true_eq]
  case refine_7 => norm_num [catfish_rule, decide_eq_true_eq]
  intro ph temperature turbidity h
  simp only [trout_rule, decide_eq_true_eq] at h
  obtain ⟨-, -, -, ht18, -, -⟩ := h
  refine ⟨?_, ?_, ?_⟩ <;>
    · simp only [tilapia_rule, catfish_rule, carp_rule,
        decide_eq_false_iff_not]
      rintro ⟨-, -, hlow, -, -, -⟩
      linarith

/-- Witness for C3 (amended): the Trout rule fires at `(7, 15, 10)`, hence
the Tilapia rule cannot. -/
theorem C3_amended_rule_exclusivity_witness : tilapia_rule 7 15 10 = false :=
  (C3_amended_rule_exclusivity.1 7 15 10
    (by norm_num [trout_rule, decide_eq_true_eq])).1

/-- The Variant A banding never awards less than 1 point per parameter and
never more than 3, so the normalized score lies in `[10/3, 10]`. -/
theorem basic_water_quality_score_bounds (data : BasicFishPredictionRequest) :
    10 / 3 ≤ basic_water_quality_score data ∧
    basic_water_quality_score data ≤ 10 := by
  unfold basic_water_quality_score
  split_ifs <;> norm_num

/-- The confidence attached by the rule-based fallback is one of
0.85, 0.80, 0.75, 0.90, 0.7, so it lies in `[0, 1]`. -/
theorem rule_based_prediction_confidence_bounds (ph temperature turbidity : ℚ) :
    0 ≤ (rule_based_prediction ph temperature turbidity).2 ∧
    (rule_based_prediction ph temperature turbidity).2 ≤ 1 := by
  unfold rule_based_prediction
  split_ifs <;> norm_num

/-- `predict_basic` always reports the Variant A score. -/
theorem predict_basic_water_quality_score
    (basic_model_outcome : Option (String × ℚ))
    (data : BasicFishPredictionRequest) :
    (predict_basic basic_model_outcome data).water_quality_score
      = some (basic_water_quality_score data) := rfl

/-- Claim C9: for every basic-tier input, the Variant A score reported by
`predict_basic` is at least `10/3` and at most `10` — strictly tighter than
the spec-level `[0, 10]` bound. -/
theorem C9_variant_a_score_tight_bounds (data : BasicFishPredictionRequest)
    (basic_model_outcome : Option (String × ℚ)) :
    (predict_basic basic_model_outcome data).water_quality_score
      = some (basic_water_quality_score data) ∧
    10 / 3 ≤ basic_water_quality_score data ∧
    basic_water_quality_score data ≤ 10 :=
  ⟨rfl, basic_water_quality_score_bounds data⟩

/-- Claim C5: for every well-formed basic-tier input, as long as the
external model (when it succeeds) reports a confidence in `[0, 1]`, the
result of `predict_basic` has confidence in `[0, 1]` and a water-quality
score in `[0, 10]`; in particular this holds on the rule-based fallback
path (`basic_model_outcome = none`). -/
theorem C5_predict_basic_bounds (data : BasicFishPredictionRequest)
    (basic_model_outcome : Option (String × ℚ))
    (hmo : ∀ s c, basic_model_outcome = some (s, c) → 0 ≤ c ∧ c ≤ 1) :
    (0 ≤ (predict_basic basic_model_outcome data).confidence ∧
      (predict_basic basic_model_outcome data).confidence ≤ 1) ∧
    ∃ w, (predict_basic basic_model_outcome data).water_quality_score = some w ∧
      0 ≤ w ∧ w ≤ 10 := by
  constructor
  · match basic_model_outcome, hmo with
    | some (s, c), hmo => exact hmo s c rfl
    | none, _ =>
        exact rule_based_prediction_confidence_bounds data.ph data.temperature
          data.turbidity
  · refine ⟨basic_water_quality_score data, rfl, ?_, ?_⟩
    · linarith [(basic_water_quality_score_bounds data).1]
    · exact (basic_water_quality_score_bounds data).2

/-- Witness for C5 at the concrete fallback input `(7, 26, 45)`. -/
theorem C5_predict_basic_bounds_witness :
    (0 ≤ (predict_basic none
        { ph := 7, temperature := 26, turbidity := 45 }).confidence ∧
      (predict_basic none
        { ph := 7, temperature := 26, turbidity := 45 }).confidence ≤ 1) ∧
    ∃ w, (predict_basic none
        { ph := 7, temperature := 26, turbidity := 45 }).water_quality_score
          = some w ∧ 0 ≤ w ∧ w ≤ 10 :=
  C5_predict_basic_bounds { ph := 7, temperature := 26, turbidity := 45 }
    none (fun s c h => by cases h)

/-- Claim C7: the Variant B weighted scorer returns exactly 10 when only
`ph = 7.0` is present among its recognized keys, and exactly 5 when none of
`ph`, `temperature`, `dissolved_oxygen` is present (an unrecognized key
such as `turbidity` does not change that). -/
theorem C7_variant_b_edge_values :
    _calculate_water_quality_score { ph := some 7.0 } = 10 ∧
    _calculate_water_quality_score { turbidity := some 50.0 } = 5.0 := by
  constructor <;> norm_num [_calculate_water_quality_score]

/-- View the `water_quality_score` of an advanced-tier outcome: `none` when
the call raised, `some s` when it returned a result with score `s`. -/
def result_water_quality_score :
    Except Unit PredictionResultT → Option (Option ℚ)
  | Except.ok r => some r.water_quality_score
  | Except.error _ => none

/-- A fixed well-formed advanced-tier request used as concrete input. -/
def advanced_request_example : AdvancedFishPredictionRequest :=
  { ph := 7, temperature := 25, turbidity := 50, dissolved_oxygen := 6,
    bod := 1, co2 := 5, alkalinity := 100, hardness := 120, calcium := 40,
    ammonia := 0.01, nitrite := 0.005, phosphorus := 0.1, h2s := 0.001,
    plankton := 500 }

/-- Claim C1 counterexample: when the primary model succeeds but the
water-quality model is unavailable (`self.water_quality_model.model` falsy),
`predict_advanced` returns `water_quality_score = None` — the Variant B
fallback is NOT taken, because only an exception inside the `try` block
triggers it and an unloaded model raises nothing. -/
theorem C1_counterexample_unavailable_model_yields_none :
    result_water_quality_score
      (predict_advanced (fun b => Except.ok (predict_basic none b))
        (some ("Tilapia", 0.9)) false none advanced_request_example)
      = some none ∧
    some (none : Option ℚ) ≠
      some (some (_calculate_water_quality_score
        (advanced_input_data advanced_request_example))) := by
  constructor
  · rfl
  · simp

/-- Claim C1 (amended): when the primary model succeeds, the Variant B
fallback score is returned exactly when the water-quality model is loaded
and its `predict` call fails; when the model is absent/unconfigured the
returned `water_quality_score` is `None` (no fallback). -/
theorem C1_amended_wq_fallback_only_on_predict_failure
    (basic_call : BasicFishPredictionRequest → Except Unit PredictionResultT)
    (wq_model_outcome : Option ℚ) (sp : String) (conf : ℚ)
    (data : AdvancedFishPredictionRequest) :
    result_water_quality_score
      (predict_advanced basic_call (some (sp, conf)) true none data)
      = some (some (_calculate_water_quality_score (advanced_input_data data))) ∧
    result_water_quality_score
      (predict_advanced basic_call (some (sp, conf)) false wq_model_outcome data)
      = some none :=
  ⟨rfl, rfl⟩

/-- The 3-parameter `BasicFishPredictionRequest` that `predict_advanced`
builds in its fallback branch. -/
def basic_subset (data : AdvancedFishPredictionRequest) :
    BasicFishPredictionRequest :=
  { ph := data.ph, temperature := data.temperature,
    turbidity := data.turbidity }

/-- Claim C4: when the primary advanced model fails, `predict_advanced`
returns exactly `predict_basic` applied to the `{ph, temperature,
turbidity}` subset of the input (the other 11 parameters are discarded);
and when the delegated basic call itself fails, that failure propagates. -/
theorem C4_advanced_primary_failure_delegates_to_basic
    (basic_model_outcome : Option (String × ℚ))
    (wq_model_loaded : Bool) (wq_model_outcome : Option ℚ)
    (data : AdvancedFishPredictionRequest) :
    predict_advanced (fun b => Except.ok (predict_basic basic_model_outcome b))
        none wq_model_loaded wq_model_outcome data
      = Except.ok (predict_basic basic_model_outcome (basic_subset data)) ∧
    ∀ (basic_call : BasicFishPredictionRequest → Except Unit PredictionResultT)
      (e : Unit),
      basic_call (basic_subset data) = Except.error e →
      predict_advanced basic_call none wq_model_loaded wq_model_outcome data
        = Except.error e := by
  refine ⟨rfl, ?_⟩
  intro basic_call e h
  exact h

/-- Witness for C4: a delegate that always raises makes the whole advanced
call raise. -/
theorem C4_advanced_primary_failure_delegates_to_basic_witness :
    predict_advanced (fun _ => Except.error ()) none false none
        advanced_request_example = Except.error () :=
  (C4_advanced_primary_failure_delegates_to_basic none false none
      advanced_request_example).2 (fun _ => Except.error ()) () rfl

/-- A basic-complete input (cold, clear water) with the three advanced
values absent. -/
def cold_water_request : WaterData :=
  { ph := some 7, temperature := some 12, turbidity := some 10 }

/-- On `cold_water_request`, the basic range filter qualifies exactly
Salmon and Trout. -/
theorem cold_water_request_basic_eval :
    _get_suitable_species_basic cold_water_request = ["Salmon", "Trout"] := by
  rw [suitable_basic_eq_filter]
  norm_num [cold_water_request, fish_species_info, basic_range_ok,
    List.filter_cons, Option.getD]

/-- Claim C2 counterexample: with `dissolved_oxygen`, `ammonia`, `nitrite`
all absent, Salmon qualifies under the basic range filter at
`(ph, temperature, turbidity) = (7, 12, 10)` but is rejected by the
advanced filter: the defaults `(6.0, 0.05, 0.01)` fail the Salmon/Trout
requirement `do >= 7.0 and ammonia < 0.05 and nitrite < 0.01`. -/
theorem C2_counterexample_salmon_rejected_on_absence :
    "Salmon" ∈ _get_suitable_species_basic cold_water_request ∧
    "Salmon" ∉ _get_suitable_species_advanced cold_water_request := by
  constructor
  · rw [cold_water_request_basic_eval]
    simp
  · rw [suitable_advanced_eq_filter, cold_water_request_basic_eval]
    norm_num [cold_water_request, advanced_criteria_ok, List.filter_cons,
      Option.getD]

/-- Claim C2 (amended): when the three advanced values are absent, the
defaults `(6.0, 0.05, 0.01)` let every basic-qualified species through
EXCEPT Salmon and Trout, which are always rejected (their stricter check
fails on all three defaults). -/
theorem C2_amended_absence_rejects_only_salmon_trout (data : WaterData)
    (hdo : data.dissolved_oxygen = none) (ham : data.ammonia = none)
    (hni : data.nitrite = none) :
    (∀ s, s ∈ _get_suitable_species_basic data → s ≠ "Salmon" → s ≠ "Trout" →
        s ∈ _get_suitable_species_advanced data) ∧
    "Salmon" ∉ _get_suitable_species_advanced data ∧
    "Trout" ∉ _get_suitable_species_advanced data := by
  rw [suitable_advanced_eq_filter, hdo, ham, hni]
  refine ⟨?_, ?_, ?_⟩
  · intro s hs h1 h2
    rw [List.mem_filter]
    refine ⟨hs, ?_⟩
    rw [advanced_criteria_ok, if_neg (by simp [h1, h2])]
    by_cases h3 : s = "Tilapia" ∨ s = "Catfish" ∨ s = "Carp"
    · rw [if_pos h3]
      norm_num
    · rw [if_neg h3]
      norm_num
  · rw [List.mem_filter]
    rintro ⟨-, hok⟩
    rw [advanced_criteria_ok, if_pos (by simp)] at hok
    norm_num at hok
  · rw [List.mem_filter]
    rintro ⟨-, hok⟩
    rw [advanced_criteria_ok, if_pos (by simp)] at hok
    norm_num at hok

/-- Witness for C2 (amended): at `(ph, temperature, turbidity) =
(7, 22, 40)` with the advanced values absent, Carp is basic-qualified and
survives the advanced filter. -/
theorem C2_amended_absence_rejects_only_salmon_trout_witness :
    "Carp" ∈ _get_suitable_species_advanced
      { ph := some 7, temperature := some 22, turbidity := some 40 } :=
  (C2_amended_absence_rejects_only_salmon_trout
      { ph := some 7, temperature := some 22, turbidity := some 40 }
      rfl rfl rfl).1 "Carp"
    (by rw [suitable_basic_eq_filter]
        norm_num [fish_species_info, basic_range_ok, List.filter_cons,
          Option.getD])
    (by simp) (by simp)

/-- An absent key yields no analysis entry. -/
theorem truthy_entry_none (f : ℚ → ParameterAnalysisEntry) :
    truthy_entry none f = none := rfl

/-- A key whose value is exactly 0 is falsy, hence yields no entry. -/
theorem truthy_entry_zero (f : ℚ → ParameterAnalysisEntry) :
    truthy_entry (some 0) f = none := by
  simp [truthy_entry]

/-- A non-zero value yields the entry built by the per-parameter rule. -/
theorem truthy_entry_nonzero {v : ℚ} (h : v ≠ 0)
    (f : ℚ → ParameterAnalysisEntry) :
    truthy_entry (some v) f = some (f v) := by
  simp [truthy_entry, h]

/-- Any produced entry comes from the per-parameter rule at some value. -/
theorem truthy_entry_some_inv {x : Option ℚ} {f : ℚ → ParameterAnalysisEntry}
    {e : ParameterAnalysisEntry} (h : truthy_entry x f = some e) :
    ∃ v, e = f v := by
  cases x with
  | none => simp [truthy_entry] at h
  | some v =>
      by_cases hv : v = 0
      · simp [truthy_entry, hv] at h
      · simp [truthy_entry, hv] at h
        exact ⟨v, h.symm⟩

/-- Every `ph` entry is classified optimal or suboptimal. -/
theorem ph_analysis_entry_status (v : ℚ) :
    (ph_analysis_entry v).status = "optimal" ∨
    (ph_analysis_entry v).status = "suboptimal" := by
  unfold ph_analysis_entry
  split_ifs <;> simp

/-- Every `temperature` entry is classified optimal or suboptimal. -/
theorem temperature_analysis_entry_status (v : ℚ) :
    (temperature_analysis_entry v).status = "optimal" ∨
    (temperature_analysis_entry v).status = "suboptimal" := by
  unfold temperature_analysis_entry
  split_ifs <;> simp

/-- Every `turbidity` entry is classified optimal or suboptimal. -/
theorem turbidity_analysis_entry_status (v : ℚ) :
    (turbidity_analysis_entry v).status = "optimal" ∨
    (turbidity_analysis_entry v).status = "suboptimal" := by
  unfold turbidity_analysis_entry
  split_ifs <;> simp

/-- Every `dissolved_oxygen` entry is classified optimal or suboptimal. -/
theorem dissolved_oxygen_analysis_entry_status (v : ℚ) :
    (dissolved_oxygen_analysis_entry v).status = "optimal" ∨
    (dissolved_oxygen_analysis_entry v).status = "suboptimal" := by
  unfold dissolved_oxygen_analysis_entry
  split_ifs <;> simp

/-- Every `ammonia` entry is classified optimal or suboptimal. -/
theorem ammonia_analysis_entry_status (v : ℚ) :
    (ammonia_analysis_entry v).status = "optimal" ∨
    (ammonia_analysis_entry v).status = "suboptimal" := by
  unfold ammonia_analysis_entry
  split_ifs <;> simp

/-- Every `nitrite` entry is classified optimal or suboptimal. -/
theorem nitrite_analysis_entry_status (v : ℚ) :
    (nitrite_analysis_entry v).status = "optimal" ∨
    (nitrite_analysis_entry v).status = "suboptimal" := by
  unfold nitrite_analysis_entry
  split_ifs <;> simp

/-- Claim C8: in both analyzers, a supplied value of exactly 0 produces no
entry for that parameter (falsiness treated as absence), while every
non-zero value of a recognized parameter produces an entry carrying a
status classification. -/
theorem C8_zero_value_treated_as_absent (data : WaterData) :
    (data.ph = some 0 → (_analyze_parameters_basic data).ph = none ∧
        (_analyze_parameters_advanced data).ph = none) ∧
    (∀ v : ℚ, data.ph = some v → v ≠ 0 →
        (_analyze_parameters_basic data).ph = some (ph_analysis_entry v) ∧
        (_analyze_parameters_advanced data).ph = some (ph_analysis_entry v) ∧
        ((ph_analysis_entry v).status = "optimal" ∨
          (ph_analysis_entry v).status = "suboptimal")) ∧
    (data.temperature = some 0 →
        (_analyze_parameters_basic data).temperature = none ∧
        (_analyze_parameters_advanced data).temperature = none) ∧
    (∀ v : ℚ, data.temperature = some v → v ≠ 0 →
        (_analyze_parameters_basic data).temperature
          = some (temperature_analysis_entry v) ∧
        (_analyze_parameters_advanced data).temperature
          = some (temperature_analysis_entry v) ∧
        ((temperature_analysis_entry v).status = "optimal" ∨
          (temperature_analysis_entry v).status = "suboptimal")) ∧
    (data.turbidity = some 0 →
        (_analyze_parameters_basic data).turbidity = none ∧
        (_analyze_parameters_advanced data).turbidity = none) ∧
    (∀ v : ℚ, data.turbidity = some v → v ≠ 0 →
        (_analyze_parameters_basic data).turbidity
          = some (turbidity_analysis_entry v) ∧
        (_analyze_parameters_advanced data).turbidity
          = some (turbidity_analysis_entry v) ∧
        ((turbidity_analysis_entry v).status = "optimal" ∨
          (turbidity_analysis_entry v).status = "suboptimal")) ∧
    (data.dissolved_oxygen = some 0 →
        (_analyze_parameters_advanced data).dissolved_oxygen = none) ∧
    (∀ v : ℚ, data.dissolved_oxygen = some v → v ≠ 0 →
        (_analyze_parameters_advanced data).dissolved_oxygen
          = some (dissolved_oxygen_analysis_entry v) ∧
        ((dissolved_oxygen_analysis_entry v).status = "optimal" ∨
          (dissolved_oxygen_analysis_entry v).status = "suboptimal")) ∧
    (data.ammonia = some 0 →
        (_analyze_parameters_advanced data).ammonia = none) ∧
    (∀ v : ℚ, data.ammonia = some v → v ≠ 0 →
        (_analyze_parameters_advanced data).ammonia
          = some (ammonia_analysis_entry v) ∧
        ((ammonia_analysis_entry v).status = "optimal" ∨
          (ammonia_analysis_entry v).status = "suboptimal")) ∧
    (data.nitrite = some 0 →
        (_analyze_parameters_advanced data).nitrite = none) ∧
    (∀ v : ℚ, data.nitrite = some v → v ≠ 0 →
        (_analyze_parameters_advanced data).nitrite
          = some (nitrite_analysis_entry v) ∧
        ((nitrite_analysis_entry v).status = "optimal" ∨
          (nitrite_analysis_entry v).status = "suboptimal")) := by
  simp only [_analyze_parameters_basic, _analyze_parameters_advanced]
  refine ⟨?_, ?_, ?_, ?_, ?_, ?_, ?_, ?_, ?_, ?_, ?_, ?_⟩
  · intro h
    rw [h]
    exact ⟨truthy_entry_zero _, truthy_entry_zero _⟩
  · intro v hv hvne
    rw [hv]
    exact ⟨truthy_entry_nonzero hvne _, truthy_entry_nonzero hvne _,
      ph_analysis_entry_status v⟩
  · intro h
    rw [h]
    exact ⟨truthy_entry_zero _, truthy_entry_zero _⟩
  · intro v hv hvne
    rw [hv]
    exact ⟨truthy_entry_nonzero hvne _, truthy_entry_nonzero hvne _,
      temperature_analysis_entry_status v⟩
  · intro h
    rw [h]
    exact ⟨truthy_entry_zero _, truthy_entry_zero _⟩
  · intro v hv hvne
    rw [hv]
    exact ⟨truthy_entry_nonzero hvne _, truthy_entry_nonzero hvne _,
      turbidity_analysis_entry_status v⟩
  · intro h
    rw [h]
    exact truthy_entry_zero _
  · intro v hv hvne
    rw [hv]
    exact ⟨truthy_entry_nonzero hvne _, dissolved_oxygen_analysis_entry_status v⟩
  · intro h
    rw [h]
    exact truthy_entry_zero _
  · intro v hv hvne
    rw [hv]
    exact ⟨truthy_entry_nonzero hvne _, ammonia_analysis_entry_status v⟩
  · intro h
    rw [h]
    exact truthy_entry_zero _
  · intro v hv hvne
    rw [hv]
    exact ⟨truthy_entry_nonzero hvne _, nitrite_analysis_entry_status v⟩

/-- Witness for C8: with `ph = 0` and `temperature = 25`, the basic
analyzer drops `ph` but keeps `temperature`. -/
theorem C8_zero_value_treated_as_absent_witness :
    (_analyze_parameters_basic
        { ph := some 0, temperature := some 25 }).ph = none ∧
    (_analyze_parameters_basic
        { ph := some 0, temperature := some 25 }).temperature
      = some (temperature_analysis_entry 25) :=
  ⟨((C8_zero_value_treated_as_absent
      { ph := some 0, temperature := some 25 }).1 rfl).1,
   ((C8_zero_value_treated_as_absent
      { ph := some 0, temperature := some 25 }).2.2.2.1 25 rfl
      (by norm_num)).1⟩

/-- A `ph` entry carries a recommendation exactly when suboptimal. -/
theorem ph_analysis_entry_rec_iff (v : ℚ) :
    (ph_analysis_entry v).recommendation.isSome = true ↔
      (ph_analysis_entry v).status = "suboptimal" := by
  unfold ph_analysis_entry
  by_cases h1 : v < 6.5
  · have hs : ¬ (6.5 ≤ v ∧ v ≤ 8.5) := by
      rintro ⟨h, -⟩
      linarith
    simp [h1, hs]
  · by_cases h2 : v > 8.5
    · have hs : ¬ (6.5 ≤ v ∧ v ≤ 8.5) := by
        rintro ⟨-, h⟩
        linarith
      simp [h1, h2, hs]
    · have hs : 6.5 ≤ v ∧ v ≤ 8.5 := ⟨not_lt.mp h1, not_lt.mp h2⟩
      simp [h1, h2, hs]

/-- A `temperature` entry carries a recommendation exactly when
suboptimal. -/
theorem temperature_analysis_entry_rec_iff (v : ℚ) :
    (temperature_analysis_entry v).recommendation.isSome = true ↔
      (temperature_analysis_entry v).status = "suboptimal" := by
  unfold temperature_analysis_entry
  by_cases h1 : v < 20
  · have hs : ¬ (20 ≤ v ∧ v ≤ 30) := by
      rintro ⟨h, -⟩
      linarith
    simp [h1, hs]
  · by_cases h2 : v > 30
    · have hs : ¬ (20 ≤ v ∧ v ≤ 30) := by
        rintro ⟨-, h⟩
        linarith
      simp [h1, h2, hs]
    · have hs : 20 ≤ v ∧ v ≤ 30 := ⟨not_lt.mp h1, not_lt.mp h2⟩
      simp [h1, h2, hs]

/-- A `turbidity` entry carries a recommendation exactly when
suboptimal. -/
theorem turbidity_analysis_entry_rec_iff (v : ℚ) :
    (turbidity_analysis_entry v).recommendation.isSome = true ↔
      (turbidity_analysis_entry v).status = "suboptimal" := by
  unfold turbidity_analysis_entry
  by_cases h1 : v < 30
  · have hs : ¬ (30 ≤ v ∧ v ≤ 80) := by
      rintro ⟨h, -⟩
      linarith
    simp [h1, hs]
  · by_cases h2 : v > 80
    · have hs : ¬ (30 ≤ v ∧ v ≤ 80) := by
        rintro ⟨-, h⟩
        linarith
      simp [h1, h2, hs]
    · have hs : 30 ≤ v ∧ v ≤ 80 := ⟨not_lt.mp h1, not_lt.mp h2⟩
      simp [h1, h2, hs]

/-- A `dissolved_oxygen` entry carries a recommendation exactly when
suboptimal. -/
theorem dissolved_oxygen_analysis_entry_rec_iff (v : ℚ) :
    (dissolved_oxygen_analysis_entry v).recommendation.isSome = true ↔
      (dissolved_oxygen_analysis_entry v).status = "suboptimal" := by
  unfold dissolved_oxygen_analysis_entry
  by_cases h1 : v < 5
  · have hs : ¬ (5 ≤ v ∧ v ≤ 9) := by
      rintro ⟨h, -⟩
      linarith
    simp [h1, hs]
  · by_cases h2 : v > 9
    · have hs : ¬ (5 ≤ v ∧ v ≤ 9) := by
        rintro ⟨-, h⟩
        linarith
      simp [h1, h2, hs]
    · have hs : 5 ≤ v ∧ v ≤ 9 := ⟨not_lt.mp h1, not_lt.mp h2⟩
      simp [h1, h2, hs]

/-- An `ammonia` entry carries a recommendation exactly when suboptimal. -/
theorem ammonia_analysis_entry_rec_iff (v : ℚ) :
    (ammonia_analysis_entry v).recommendation.isSome = true ↔
      (ammonia_analysis_entry v).status = "suboptimal" := by
  unfold ammonia_analysis_entry
  by_cases h : v < 0.1
  · have h2 : ¬ v ≥ 0.1 := not_le.mpr h
    simp [h, h2]
  · have h2 : v ≥ 0.1 := not_lt.mp h
    simp [h, h2]

/-- A `nitrite` entry carries a recommendation exactly when suboptimal. -/
theorem nitrite_analysis_entry_rec_iff (v : ℚ) :
    (nitrite_analysis_entry v).recommendation.isSome = true ↔
      (nitrite_analysis_entry v).status = "suboptimal" := by
  unfold nitrite_analysis_entry
  by_cases h : v < 0.05
  · have h2 : ¬ v ≥ 0.05 := not_le.mpr h
    simp [h, h2]
  · have h2 : v ≥ 0.05 := not_lt.mp h
    simp [h, h2]

/-- Claim C10: every entry produced by either analyzer has a non-null
recommendation exactly when its status is suboptimal; the spec-permitted
suboptimal-with-null-recommendation case never occurs. -/
theorem C10_recommendation_iff_suboptimal (data : WaterData)
    (e : ParameterAnalysisEntry)
    (h : (_analyze_parameters_basic data).ph = some e ∨
         (_analyze_parameters_basic data).temperature = some e ∨
         (_analyze_parameters_basic data).turbidity = some e ∨
         (_analyze_parameters_advanced data).ph = some e ∨
         (_analyze_parameters_advanced data).temperature = some e ∨
         (_analyze_parameters_advanced data).turbidity = some e ∨
         (_analyze_parameters_advanced data).dissolved_oxygen = some e ∨
         (_analyze_parameters_advanced data).ammonia = some e ∨
         (_analyze_parameters_advanced data).nitrite = some e) :
    (e.recommendation.isSome = true ↔ e.status = "suboptimal") := by
  simp only [_analyze_parameters_basic, _analyze_parameters_advanced] at h
  rcases h with h | h | h | h | h | h | h | h | h
  · obtain ⟨v, rfl⟩ := truthy_entry_some_inv h
    exact ph_analysis_entry_rec_iff v
  · obtain ⟨v, rfl⟩ := truthy_entry_some_inv h
    exact temperature_analysis_entry_rec_iff v
  · obtain ⟨v, rfl⟩ := truthy_entry_some_inv h
    exact turbidity_analysis_entry_rec_iff v
  · obtain ⟨v, rfl⟩ := truthy_entry_some_inv h
    exact ph_analysis_entry_rec_iff v
  · obtain ⟨v, rfl⟩ := truthy_entry_some_inv h
    exact temperature_analysis_entry_rec_iff v
  · obtain ⟨v, rfl⟩ := truthy_entry_some_inv h
    exact turbidity_analysis_entry_rec_iff v
  · obtain ⟨v, rfl⟩ := truthy_entry_some_inv h
    exact dissolved_oxygen_analysis_entry_rec_iff v
  · obtain ⟨v, rfl⟩ := truthy_entry_some_inv h
    exact ammonia_analysis_entry_rec_iff v
  · obtain ⟨v, rfl⟩ := truthy_entry_some_inv h
    exact nitrite_analysis_entry_rec_iff v

/-- Witness for C10 at `ph = 9` (suboptimal, with a decrease-pH
recommendation). -/
theorem C10_recommendation_iff_suboptimal_witness :
    ((ph_analysis_entry 9).recommendation.isSome = true ↔
      (ph_analysis_entry 9).status = "suboptimal") :=
  C10_recommendation_iff_suboptimal { ph := some 9 } (ph_analysis_entry 9)
    (Or.inl (by norm_num [_analyze_parameters_basic, truthy_entry]))
